import Mathlib

/-!
Shallow embedding of `services/disease_matcher.py` (class
DiseaseMatchingService) from the MedNex backend.

Python strings are modelled as `List Char`; `str.lower` / `str.strip` /
substring (`in`) are modelled character-wise; Python floats are modelled by
rationals, with `round(x, 2)` modelled as round-half-to-even at two decimal
places (Python's rounding mode).
-/

/-- Symptom text: a Python string, modelled as a list of characters. -/
abbrev PyStr := List Char

/-- Convert a Lean string literal to the `PyStr` representation. -/
def str (s : String) : PyStr := s.data

/-- Characters Python's `str.strip()` removes (ASCII whitespace set). -/
def pyIsSpace (c : Char) : Bool :=
  c = ' ' || c = '\t' || c = '\n' || c = '\r' || c = '\x0b' || c = '\x0c'

/-- Character-wise model of Python `str.lower()` (ASCII case range). -/
def pyLowerChar (c : Char) : Char :=
  if 'A' ≤ c ∧ c ≤ 'Z' then Char.ofNat (c.toNat + 32) else c

/-- Model of Python `s.strip()`: drop whitespace from both ends. -/
def pyStrip (l : PyStr) : PyStr :=
  ((l.dropWhile pyIsSpace).reverse.dropWhile pyIsSpace).reverse

/-- Model of the cleaning step `s.lower().strip()` applied to every symptom. -/
def pyNormalize (s : PyStr) : PyStr := pyStrip (s.map pyLowerChar)

/-- Model of Python's substring test `a in b` (contiguous substring). -/
def isSubstr (a b : PyStr) : Bool :=
  (List.range (b.length + 1)).any (fun i => ((b.drop i).take a.length) == a)

/-- The inner scan of `_calculate_confidence`: for one user symptom, walk the
disease symptoms in order; `some true` on the first exact match, `some false`
on the first partial (substring either way) match, `none` if no slot matches.
This is the loop body with its `break` statements. -/
def scanMatch (u : PyStr) : List PyStr → Option Bool
  | [] => none
  | d :: ds =>
    if u = d then some true
    else if isSubstr u d || isSubstr d u then some false
    else scanMatch u ds

/-- The two counters `exact_matches` and `partial_matches` accumulated by the
outer loop of `_calculate_confidence`. -/
def countMatches : List PyStr → List PyStr → Nat × Nat
  | [], _ => (0, 0)
  | u :: us, ds =>
    let rest := countMatches us ds
    match scanMatch u ds with
    | some true => (rest.1 + 1, rest.2)
    | some false => (rest.1, rest.2 + 1)
    | none => rest

/-- Python `round(q, 2)`: round half to even at two decimal places. -/
def round2 (q : ℚ) : ℚ :=
  let x := q * 100
  let n := Int.floor x
  let frac := x - n
  let r : ℤ :=
    if frac < 1 / 2 then n
    else if 1 / 2 < frac then n + 1
    else if n % 2 = 0 then n else n + 1
  (r : ℚ) / 100

/-- `DiseaseMatchingService._calculate_confidence`. -/
def calcConfidence (us ds : List PyStr) : ℚ :=
  if us = [] ∨ ds = [] then 0
  else
    let c := countMatches us ds
    let total : ℚ := (c.1 : ℚ) + (c.2 : ℚ) * (7 / 10)
    round2 (min ((total / (us.length : ℚ)) * 100) 100)

/-- One user symptom matches one disease symptom (exactly or by substring);
the condition tested by `_get_matching_symptoms`. -/
def symMatches (u d : PyStr) : Bool := u == d || isSubstr u d || isSubstr d u

/-- `DiseaseMatchingService._get_matching_symptoms`: the user symptoms, in
input order, that match at least one disease symptom. -/
def getMatchingSymptoms (us ds : List PyStr) : List PyStr :=
  us.filter (fun u => ds.any (symMatches u))

/-- `DiseaseMatchingService._assess_severity`. -/
def assessSeverity (c : ℚ) : PyStr :=
  if 70 ≤ c then str "High" else if 40 ≤ c then str "Medium" else str "Low"

/-- One row of the loaded dataset: the `Disease` column, the `Symptom_*`
columns (`none` models a NaN cell), and the optional `Description` /
`Treatment` columns (`none` models an absent column, covered by
`Series.get` defaults in the source). -/
structure DiseaseRow where
  name : PyStr
  symptoms : List (Option PyStr)
  description : Option PyStr
  treatment : Option PyStr
deriving DecidableEq

/-- The normalized symptom set of a row: non-NaN `Symptom_*` cells, each
lowercased and stripped (the loop at the top of `predict_diseases`). -/
def rowSymptoms (r : DiseaseRow) : List PyStr :=
  r.symptoms.filterMap (fun o => o.map pyNormalize)

/-- One prediction entry as assembled in `predict_diseases`. -/
structure Entry where
  name : PyStr
  confidence : ℚ
  description : PyStr
  treatment : PyStr
  severity : PyStr
  matching_symptoms : List PyStr
deriving DecidableEq

/-- The dictionary built for a disease row that survives the
`confidence > 0` filter in `predict_diseases`. -/
def mkEntry (r : DiseaseRow) (conf : ℚ) (clean : List PyStr) : Entry :=
  { name := r.name
    confidence := conf
    description := r.description.getD (str "No description available")
    treatment := r.treatment.getD (str "Consult healthcare professional")
    severity := assessSeverity conf
    matching_symptoms := getMatchingSymptoms clean (rowSymptoms r) }

/-- The `predictions` list of `predict_diseases`: one entry per dataset row
whose confidence against the cleaned symptoms is strictly positive, in
dataset iteration order. -/
def candidates (table : List DiseaseRow) (clean : List PyStr) : List Entry :=
  table.filterMap (fun r =>
    if 0 < calcConfidence clean (rowSymptoms r) then
      some (mkEntry r (calcConfidence clean (rowSymptoms r)) clean)
    else none)

/-- Insert an entry into a descending-by-confidence list, after every earlier
entry of greater-or-equal confidence already present later in the fold; used
to model Python's stable `list.sort(key=confidence, reverse=True)`. -/
def insertDesc (x : Entry) : List Entry → List Entry
  | [] => [x]
  | y :: ys => if y.confidence ≤ x.confidence then x :: y :: ys else y :: insertDesc x ys

/-- Stable descending sort by confidence, modelling
`predictions.sort(key=lambda x: x['confidence'], reverse=True)`. -/
def sortDesc (l : List Entry) : List Entry := l.foldr insertDesc []

/-- `predictions[:5]` after the stable descending sort. -/
def top5 (table : List DiseaseRow) (clean : List PyStr) : List Entry :=
  (sortDesc (candidates table clean)).take 5

/-- The fallback trigger `not top_predictions or top_predictions[0]['confidence'] < 20`. -/
def lowConfidence : List Entry → Bool
  | [] => true
  | e :: _ => decide (e.confidence < 20)

/-- First fixed advisory entry of `_get_general_recommendations`. -/
def gchEntry (symptoms : List PyStr) : Entry :=
  { name := str "General Health Consultation"
    confidence := 60
    description := str "Based on your symptoms (" ++
      List.intercalate (str ", ") (symptoms.take 3) ++
      str "), we recommend consulting a healthcare professional for proper evaluation."
    treatment := str "Schedule an appointment with your doctor or visit a clinic for professional medical advice."
    severity := str "Medium"
    matching_symptoms := symptoms.take 3 }

/-- Second fixed advisory entry of `_get_general_recommendations`. -/
def scEntry (symptoms : List PyStr) : Entry :=
  { name := str "Symptomatic Care"
    confidence := 40
    description := str "General symptomatic care may help while you seek professional medical advice."
    treatment := str "Rest, stay hydrated, monitor symptoms, and seek medical attention if symptoms worsen."
    severity := str "Low"
    matching_symptoms := symptoms.take 2 }

/-- `DiseaseMatchingService._get_general_recommendations`. -/
def generalRecommendations (symptoms : List PyStr) : List Entry :=
  [gchEntry symptoms, scEntry symptoms]

/-- The tail of the `try` block of `predict_diseases` on cleaned symptoms:
rank, take five, substitute the general recommendations when the ranked list
is empty or its top confidence is below 20. -/
def rankedOrFallback (table : List DiseaseRow) (clean : List PyStr) : List Entry :=
  if lowConfidence (top5 table clean) then generalRecommendations clean
  else top5 table clean

/-- The whole `try` block of `predict_diseases` for a present dataset:
clean the symptoms once, then score, rank and apply the fallback policy. -/
def scoreBody (table : List DiseaseRow) (symptoms : List PyStr) : List Entry :=
  rankedOrFallback table (symptoms.map pyNormalize)

/-- The `try` block as a fallible computation: it raises exactly when
`self.disease_data is None`. -/
def scoreBodyE (data : Option (List DiseaseRow)) (symptoms : List PyStr) :
    Except PyStr (List Entry) :=
  match data with
  | none => Except.error (str "Disease dataset not available")
  | some table => Except.ok (scoreBody table symptoms)

/-- `DiseaseMatchingService.predict_diseases` (its `diseases` field): run the
`try` block; on an exception return the general recommendations built from
the raw, uncleaned input symptoms (the `except` branch). -/
def predictDiseases (data : Option (List DiseaseRow)) (symptoms : List PyStr) :
    List Entry :=
  match scoreBodyE data symptoms with
  | Except.ok r => r
  | Except.error _ => generalRecommendations symptoms

/-- One fallback row, from the column-wise literals of
`_create_fallback_dataset`. -/
def fbRow (n s1 s2 s3 d t : String) : DiseaseRow :=
  { name := str n
    symptoms := [some (str s1), some (str s2), some (str s3)]
    description := some (str d)
    treatment := some (str t) }

/-- `DiseaseMatchingService._create_fallback_dataset`: the fixed table of 12
diseases with three symptom slots, a description and a treatment each. -/
def fallbackDataset : List DiseaseRow :=
  [ fbRow "Common Cold" "runny nose" "cough" "sore throat"
      "Viral infection affecting nose and throat"
      "Rest, fluids, over-the-counter medications"
  , fbRow "Influenza" "fever" "body aches" "fatigue"
      "Respiratory illness caused by influenza viruses"
      "Rest, fluids, antiviral medications if prescribed"
  , fbRow "Migraine" "headache" "sensitivity to light" "nausea"
      "Severe headache often with nausea and light sensitivity"
      "Pain relievers, rest in dark room, avoid triggers"
  , fbRow "Food Poisoning" "nausea" "vomiting" "diarrhea"
      "Illness caused by consuming contaminated food"
      "Hydration, bland diet, medical attention if severe"
  , fbRow "Allergic Reaction" "rash" "itching" "swelling"
      "Immune system reaction to allergens"
      "Avoid allergens, antihistamines, medical evaluation"
  , fbRow "Anxiety" "worry" "restlessness" "rapid heartbeat"
      "Mental health condition characterized by excessive worry"
      "Therapy, relaxation techniques, medical consultation"
  , fbRow "Hypertension" "high blood pressure" "headache" "dizziness"
      "Condition where blood pressure is consistently high"
      "Lifestyle changes, medication as prescribed"
  , fbRow "Diabetes" "frequent urination" "excessive thirst" "blurred vision"
      "Metabolic disorder affecting blood sugar levels"
      "Diet management, exercise, medication as prescribed"
  , fbRow "Asthma" "shortness of breath" "wheezing" "cough"
      "Respiratory condition causing breathing difficulties"
      "Inhalers, avoid triggers, medical management"
  , fbRow "Gastritis" "stomach pain" "bloating" "acid reflux"
      "Inflammation of stomach lining"
      "Dietary changes, medications, avoid irritants"
  , fbRow "Insomnia" "difficulty sleeping" "fatigue" "irritability"
      "Sleep disorder preventing adequate rest"
      "Sleep hygiene, stress management, medical evaluation"
  , fbRow "Depression" "sadness" "loss of interest" "fatigue"
      "Mental health condition affecting mood and behavior"
      "Therapy, lifestyle changes, medical consultation" ]

/-- `DiseaseMatchingService._load_dataset`, parameterised by the outcome of
the file system and the CSV parser: `none` models a missing path,
`some (Except.error e)` a parse that raised, `some (Except.ok rows)` a parse
that returned `rows`. -/
def loadDataset : Option (Except PyStr (List DiseaseRow)) → List DiseaseRow
  | none => fallbackDataset
  | some (Except.error _) => fallbackDataset
  | some (Except.ok rows) => rows

/-- Spec-side per-symptom contribution: what one user symptom adds to
`total_matches` at the first disease symptom it matches in scanning order
(1 for an exact match, 0.7 for a substring match, 0 for none). -/
def contrib (u : PyStr) (ds : List PyStr) : ℚ :=
  match scanMatch u ds with
  | some true => 1
  | some false => 7 / 10
  | none => 0

/-- Spec-side `total_matches`: the sum of the per-symptom contributions. -/
def totalContrib (us ds : List PyStr) : ℚ :=
  (us.map (fun u => contrib u ds)).sum

/-- Spec-side confidence formula:
`round(min(100, (total_matches / |Su|) * 100), 2)`, and 0 for empty input. -/
def specConfidence (us ds : List PyStr) : ℚ :=
  if us = [] then 0
  else round2 (min ((totalContrib us ds / (us.length : ℚ)) * 100) 100)

/-- `t` is `s` with the case of its letters changed (character-wise: the two
characters agree after lowercasing). -/
def caseVariant (s t : PyStr) : Prop :=
  List.Forall₂ (fun a b => pyLowerChar b = pyLowerChar a) s t

/-- `t` is `s` with (possibly empty) extra leading and trailing whitespace. -/
def wsPad (s t : PyStr) : Prop :=
  ∃ w₁ w₂, t = w₁ ++ s ++ w₂ ∧ (∀ c ∈ w₁, pyIsSpace c = true) ∧
    (∀ c ∈ w₂, pyIsSpace c = true)

/-- `t` is obtained from `s` by changing letter case and/or adding leading or
trailing whitespace. -/
def symVariant (s t : PyStr) : Prop :=
  ∃ m, caseVariant s m ∧ wsPad m t

/-- A one-row table whose disease has symptoms `fever` and `cough`. -/
def fluRow : DiseaseRow :=
  { name := str "Flu"
    symptoms := [some (str "fever"), some (str "cough")]
    description := some (str "flu-like illness")
    treatment := some (str "rest") }

/-- A one-row table whose single symptom matches nothing fever-like. -/
def xyzRow : DiseaseRow :=
  { name := str "Xyz"
    symptoms := [some (str "zzz")]
    description := some (str "zzz condition")
    treatment := some (str "zzz care") }

/-- A one-row table used to reach a confidence of exactly 20. -/
def aRow : DiseaseRow :=
  { name := str "Adisease"
    symptoms := [some (str "aaa")]
    description := some (str "a condition")
    treatment := some (str "a care") }

/-- A one-row table with a whitespace-only symptom slot. -/
def wsRow : DiseaseRow :=
  { name := str "Wsdisease"
    symptoms := [some (str "xxx"), some (str "   ")]
    description := some (str "ws condition")
    treatment := some (str "ws care") }

theorem totalContrib_cons (u : PyStr) (us ds : List PyStr) :
    totalContrib (u :: us) ds = contrib u ds + totalContrib us ds := by
  simp [totalContrib]

theorem totalContrib_nil_right (us : List PyStr) : totalContrib us [] = 0 := by
  induction us with
  | nil => simp [totalContrib]
  | cons u us ih =>
    rw [totalContrib_cons, ih]
    simp [contrib, scanMatch]

theorem countMatches_eq_totalContrib (us ds : List PyStr) :
    ((countMatches us ds).1 : ℚ) + ((countMatches us ds).2 : ℚ) * (7 / 10)
      = totalContrib us ds := by
  induction us with
  | nil => simp [countMatches, totalContrib]
  | cons u us ih =>
    have hc : countMatches (u :: us) ds =
        match scanMatch u ds with
        | some true => ((countMatches us ds).1 + 1, (countMatches us ds).2)
        | some false => ((countMatches us ds).1, (countMatches us ds).2 + 1)
        | none => countMatches us ds := rfl
    rcases h : scanMatch u ds with _ | b
    · rw [totalContrib_cons, hc, h, ← ih]
      simp [contrib, h]
    · cases b
      · rw [totalContrib_cons, hc, h, ← ih]
        simp only [contrib, h]
        push_cast
        ring
      · rw [totalContrib_cons, hc, h, ← ih]
        simp only [contrib, h]
        push_cast
        ring

theorem round2_zero : round2 0 = 0 := by
  simp [round2]

/-- C1: for non-empty normalized user symptoms the confidence returned by
`_calculate_confidence` equals `round(min(100, (total_matches / |Su|) * 100), 2)`
where `total_matches` sums, per user symptom, 1 at a first exact match and
0.7 at a first substring match in scanning order; for empty input it is 0.
Stated as an unconditional equality between the code's two-counter loop and
the spec's per-symptom contribution formula. -/
theorem claim1_confidence_formula (us ds : List PyStr) :
    calcConfidence us ds = specConfidence us ds := by
  unfold calcConfidence specConfidence
  by_cases hus : us = []
  · simp [hus]
  · by_cases hds : ds = []
    · subst hds
      rw [if_pos (Or.inr rfl), if_neg hus, totalContrib_nil_right]
      norm_num [round2_zero]
    · rw [if_neg (by simp [hus, hds]), if_neg hus]
      show round2 (min ((((countMatches us ds).1 : ℚ) +
          ((countMatches us ds).2 : ℚ) * (7 / 10)) / (us.length : ℚ) * 100) 100)
        = round2 (min (totalContrib us ds / (us.length : ℚ) * 100) 100)
      rw [countMatches_eq_totalContrib]

theorem insertDesc_perm (x : Entry) (l : List Entry) :
    (insertDesc x l).Perm (x :: l) := by
  induction l with
  | nil => rfl
  | cons y ys ih =>
    unfold insertDesc
    by_cases h : y.confidence ≤ x.confidence
    · rw [if_pos h]
    · rw [if_neg h]
      exact (ih.cons y).trans (List.Perm.swap x y ys)

theorem sortDesc_perm (l : List Entry) : (sortDesc l).Perm l := by
  induction l with
  | nil => rfl
  | cons a l ih =>
    have : sortDesc (a :: l) = insertDesc a (sortDesc l) := rfl
    rw [this]
    exact (insertDesc_perm a (sortDesc l)).trans (ih.cons a)

theorem sortDesc_eq_nil_iff (l : List Entry) : sortDesc l = [] ↔ l = [] := by
  constructor
  · intro h
    have hp := sortDesc_perm l
    rw [h] at hp
    exact hp.symm.eq_nil
  · intro h
    subst h
    rfl

theorem candidates_nil_input (t : List DiseaseRow) : candidates t [] = [] := by
  induction t with
  | nil => rfl
  | cons r t ih =>
    have h0 : calcConfidence [] (rowSymptoms r) = 0 := by
      simp [calcConfidence]
    unfold candidates at ih ⊢
    rw [List.filterMap_cons]
    simp only [h0, lt_self_iff_false, if_false]
    exact ih

unseal Rat.mul Rat.add Rat.sub Rat.inv in
/-- C2: `predict_diseases` substitutes the two fixed advisory entries exactly
when the ranked candidate list is empty or its top confidence is strictly
below 20 (the trigger `lowConfidence`); otherwise it returns the ranked top
five. A top confidence of exactly 20 keeps the ranked list (shown on a
concrete table reaching confidence 20), and on an empty input over any
non-empty table the result is exactly the two fixed entries. -/
theorem claim2_fallback_substitution (t : List DiseaseRow) (S : List PyStr) :
    (lowConfidence (top5 t (S.map pyNormalize)) = true →
      predictDiseases (some t) S = generalRecommendations (S.map pyNormalize))
    ∧ (lowConfidence (top5 t (S.map pyNormalize)) = false →
      predictDiseases (some t) S = top5 t (S.map pyNormalize))
    ∧ (lowConfidence (top5 t (S.map pyNormalize)) = true ↔
      (candidates t (S.map pyNormalize) = [] ∨
        ∃ e rest, sortDesc (candidates t (S.map pyNormalize)) = e :: rest ∧
          e.confidence < 20))
    ∧ (t ≠ [] → predictDiseases (some t) [] = [gchEntry [], scEntry []])
    ∧ (predictDiseases (some [aRow])
        [str "aaa", str "b", str "c", str "d", str "e"]).map Entry.confidence
      = [20] := by
  refine ⟨?_, ?_, ?_, ?_, ?_⟩
  · intro h
    simp [predictDiseases, scoreBodyE, scoreBody, rankedOrFallback, h]
  · intro h
    simp [predictDiseases, scoreBodyE, scoreBody, rankedOrFallback, h]
  · cases hs : sortDesc (candidates t (S.map pyNormalize)) with
    | nil =>
      have hc : candidates t (S.map pyNormalize) = [] := (sortDesc_eq_nil_iff _).mp hs
      rw [top5, hs]
      simp [lowConfidence, hc]
    | cons e rest =>
      have hne : candidates t (S.map pyNormalize) ≠ [] := by
        intro h0
        rw [(sortDesc_eq_nil_iff _).mpr h0] at hs
        exact List.noConfusion hs
      rw [top5, hs]
      show lowConfidence (List.take 5 (e :: rest)) = true ↔ _
      rw [List.take_succ_cons]
      simp only [lowConfidence, decide_eq_true_eq, hne, false_or]
      constructor
      · intro h
        exact ⟨e, rest, rfl, h⟩
      · rintro ⟨e', rest', he, hlt⟩
        cases he
        exact hlt
  · intro _
    simp [predictDiseases, scoreBodyE, scoreBody, rankedOrFallback, top5,
      candidates_nil_input, sortDesc, lowConfidence, generalRecommendations]
  · decide

unseal Rat.mul Rat.add Rat.sub Rat.inv in
theorem claim2_fallback_substitution_app :
    predictDiseases (some [xyzRow]) [str "zq"]
        = generalRecommendations ([str "zq"].map pyNormalize)
      ∧ predictDiseases (some [fluRow]) [] = [gchEntry [], scEntry []] :=
  ⟨(claim2_fallback_substitution [xyzRow] [str "zq"]).1 (by decide),
   (claim2_fallback_substitution [fluRow] []).2.2.2.1 (by decide)⟩

theorem mem_candidates {t : List DiseaseRow} {clean : List PyStr} {e : Entry}
    (he : e ∈ candidates t clean) :
    ∃ r ∈ t, 0 < calcConfidence clean (rowSymptoms r) ∧
      e = mkEntry r (calcConfidence clean (rowSymptoms r)) clean := by
  unfold candidates at he
  rw [List.mem_filterMap] at he
  rcases he with ⟨r, hr, hif⟩
  by_cases h : 0 < calcConfidence clean (rowSymptoms r)
  · rw [if_pos h] at hif
    exact ⟨r, hr, h, (Option.some.inj hif).symm⟩
  · rw [if_neg h] at hif
    exact absurd hif (by simp)

theorem mem_top5 {t : List DiseaseRow} {clean : List PyStr} {e : Entry}
    (he : e ∈ top5 t clean) : e ∈ candidates t clean :=
  (sortDesc_perm _).subset (List.mem_of_mem_take he)

unseal Rat.mul Rat.add Rat.sub Rat.inv in
/-- C3 counterexample: on the fallback path `predict_diseases` returns the
`Symptomatic Care` entry with confidence exactly 40 and severity `Low`,
whereas `_assess_severity` maps confidence 40 to `Medium`; so not every
returned entry has severity equal to the fixed pure function of its
confidence. -/
theorem claim3_severity_cex :
    ∃ e ∈ predictDiseases (some [fluRow]) [],
      e.confidence = 40 ∧ e.severity ≠ assessSeverity e.confidence := by
  decide

unseal Rat.mul Rat.add Rat.sub Rat.inv in
/-- C3 amended: every non-fallback entry has severity equal to
`_assess_severity` of its confidence (>= 70 High, >= 40 Medium, else Low,
with the stated boundary values); the fallback `General Health Consultation`
entry (confidence 60, severity Medium) agrees with that mapping, but the
fallback `Symptomatic Care` entry carries the hardcoded severity `Low` at
confidence 40 where the mapping would give `Medium`. -/
theorem claim3_severity_amended (t : List DiseaseRow) (S : List PyStr) (e : Entry) :
    (lowConfidence (top5 t (S.map pyNormalize)) = false →
      e ∈ predictDiseases (some t) S → e.severity = assessSeverity e.confidence)
    ∧ (gchEntry S).severity = assessSeverity (gchEntry S).confidence
    ∧ (scEntry S).severity = str "Low"
    ∧ assessSeverity (scEntry S).confidence = str "Medium"
    ∧ assessSeverity 70 = str "High" ∧ assessSeverity (6999 / 100) = str "Medium"
    ∧ assessSeverity 40 = str "Medium" ∧ assessSeverity (3999 / 100) = str "Low" := by
  refine ⟨?_, by norm_num [gchEntry, assessSeverity], rfl,
    by norm_num [scEntry, assessSeverity], by decide, by decide, by decide, by decide⟩
  intro hlc he
  have hp : predictDiseases (some t) S = top5 t (S.map pyNormalize) := by
    simp [predictDiseases, scoreBodyE, scoreBody, rankedOrFallback, hlc]
  rw [hp] at he
  rcases mem_candidates (mem_top5 he) with ⟨r, _, _, he'⟩
  rw [he']
  rfl

unseal Rat.mul Rat.add Rat.sub Rat.inv in
theorem claim3_severity_amended_app :
    (mkEntry fluRow 100 [str "fever"]).severity
      = assessSeverity (mkEntry fluRow 100 [str "fever"]).confidence :=
  (claim3_severity_amended [fluRow] [str "fever"]
    (mkEntry fluRow 100 [str "fever"])).1 (by decide) (by decide)

theorem mem_insertDesc {z x : Entry} {l : List Entry} :
    z ∈ insertDesc x l ↔ z = x ∨ z ∈ l := by
  rw [(insertDesc_perm x l).mem_iff, List.mem_cons]

theorem insertDesc_pairwise {x : Entry} {l : List Entry}
    (h : List.Pairwise (fun a b => b.confidence ≤ a.confidence) l) :
    List.Pairwise (fun a b => b.confidence ≤ a.confidence) (insertDesc x l) := by
  induction l with
  | nil => simp [insertDesc]
  | cons y ys ih =>
    rcases List.pairwise_cons.mp h with ⟨hy, hys⟩
    unfold insertDesc
    by_cases hc : y.confidence ≤ x.confidence
    · rw [if_pos hc]
      refine List.pairwise_cons.mpr ⟨?_, h⟩
      intro z hz
      rcases List.mem_cons.mp hz with hz | hz
      · rw [hz]; exact hc
      · exact le_trans (hy z hz) hc
    · rw [if_neg hc]
      refine List.pairwise_cons.mpr ⟨?_, ih hys⟩
      intro z hz
      rcases mem_insertDesc.mp hz with hz | hz
      · rw [hz]; exact le_of_lt (not_le.mp hc)
      · exact hy z hz

theorem sortDesc_pairwise (l : List Entry) :
    List.Pairwise (fun a b => b.confidence ≤ a.confidence) (sortDesc l) := by
  induction l with
  | nil => simp [sortDesc]
  | cons a l ih => exact insertDesc_pairwise ih

theorem filter_insertDesc (c : ℚ) (x : Entry) (l : List Entry) :
    (insertDesc x l).filter (fun e => decide (e.confidence = c)) =
      if x.confidence = c then
        x :: l.filter (fun e => decide (e.confidence = c))
      else l.filter (fun e => decide (e.confidence = c)) := by
  induction l with
  | nil => by_cases hx : x.confidence = c <;> simp [insertDesc, hx]
  | cons y ys ih =>
    unfold insertDesc
    by_cases hyx : y.confidence ≤ x.confidence
    · rw [if_pos hyx]
      by_cases hx : x.confidence = c <;> simp [hx, List.filter_cons]
    · rw [if_neg hyx]
      by_cases hx : x.confidence = c
      · have hyc : ¬ y.confidence = c := by
          intro hy
          exact hyx (le_of_eq (hy.trans hx.symm))
        simp [List.filter_cons, hyc, ih, hx]
      · by_cases hy : y.confidence = c <;> simp [List.filter_cons, hy, ih, hx]

theorem sortDesc_stable (l : List Entry) (c : ℚ) :
    (sortDesc l).filter (fun e => decide (e.confidence = c)) =
      l.filter (fun e => decide (e.confidence = c)) := by
  induction l with
  | nil => rfl
  | cons a l ih =>
    have hs : sortDesc (a :: l) = insertDesc a (sortDesc l) := rfl
    rw [hs, filter_insertDesc]
    by_cases ha : a.confidence = c <;> simp [ha, ih, List.filter_cons]

unseal Rat.mul Rat.add Rat.sub Rat.inv in
/-- C4: when the fallback is not taken, the returned list is the top five of
the stable descending sort of the positive-confidence candidates: every
entry has confidence strictly greater than 0, confidences are descending
across all adjacent pairs, ties keep the original dataset iteration order
(the sort leaves every equal-confidence fibre of the candidate list
unchanged), and the length is at most 5; in fallback mode the length is
exactly 2. -/
theorem claim4_ranked_invariants (t : List DiseaseRow) (S : List PyStr) :
    (lowConfidence (top5 t (S.map pyNormalize)) = false →
      predictDiseases (some t) S = top5 t (S.map pyNormalize)
      ∧ (∀ e ∈ predictDiseases (some t) S, 0 < e.confidence)
      ∧ List.Pairwise (fun a b => b.confidence ≤ a.confidence)
          (predictDiseases (some t) S)
      ∧ (predictDiseases (some t) S).length ≤ 5)
    ∧ (∀ c : ℚ,
        (sortDesc (candidates t (S.map pyNormalize))).filter
            (fun e => decide (e.confidence = c))
          = (candidates t (S.map pyNormalize)).filter
            (fun e => decide (e.confidence = c)))
    ∧ (lowConfidence (top5 t (S.map pyNormalize)) = true →
      (predictDiseases (some t) S).length = 2) := by
  refine ⟨?_, fun c => sortDesc_stable _ c, ?_⟩
  · intro hlc
    have hp : predictDiseases (some t) S = top5 t (S.map pyNormalize) := by
      simp [predictDiseases, scoreBodyE, scoreBody, rankedOrFallback, hlc]
    refine ⟨hp, ?_, ?_, ?_⟩
    · intro e he
      rw [hp] at he
      rcases mem_candidates (mem_top5 he) with ⟨r, _, hpos, he'⟩
      rw [he']
      exact hpos
    · rw [hp]
      exact List.Pairwise.sublist (List.take_sublist 5 _) (sortDesc_pairwise _)
    · rw [hp]
      exact List.length_take_le 5 _
  · intro hlc
    simp [predictDiseases, scoreBodyE, scoreBody, rankedOrFallback, hlc,
      generalRecommendations]

unseal Rat.mul Rat.add Rat.sub Rat.inv in
theorem claim4_ranked_invariants_app :
    (predictDiseases (some [fluRow]) [str "fever"]).length ≤ 5
      ∧ (predictDiseases (some [xyzRow]) [str "zq"]).length = 2 :=
  ⟨((claim4_ranked_invariants [fluRow] [str "fever"]).1 (by decide)).2.2.2,
   (claim4_ranked_invariants [xyzRow] [str "zq"]).2.2 (by decide)⟩

unseal Rat.mul Rat.add Rat.sub Rat.inv in
/-- C5 counterexample: with the duplicated input `["fever", "fever"]` against
a table whose disease lists `fever`, the ranked entry is kept (confidence
100) and its `matching_symptoms` contains `fever` twice, so it is not
duplicate-free. -/
theorem claim5_matching_dup_cex :
    ∃ e ∈ predictDiseases (some [fluRow]) [str "fever", str "fever"],
      ¬ e.matching_symptoms.Nodup := by
  decide

/-- C5 amended: for every ranked (non-fallback) entry, `matching_symptoms`
is an order-preserving sublist of the normalized input symptom list, each of
its elements belongs to that normalized list, and it is duplicate-free
whenever the normalized input list is duplicate-free; its elements are the
normalized forms, not the raw input strings, and duplicated inputs are
reported once per occurrence. -/
theorem claim5_matching_sublist_amended (t : List DiseaseRow) (S : List PyStr)
    (e : Entry) (hlc : lowConfidence (top5 t (S.map pyNormalize)) = false)
    (he : e ∈ predictDiseases (some t) S) :
    e.matching_symptoms.Sublist (S.map pyNormalize)
    ∧ (∀ x ∈ e.matching_symptoms, x ∈ S.map pyNormalize)
    ∧ ((S.map pyNormalize).Nodup → e.matching_symptoms.Nodup) := by
  have hp : predictDiseases (some t) S = top5 t (S.map pyNormalize) := by
    simp [predictDiseases, scoreBodyE, scoreBody, rankedOrFallback, hlc]
  rw [hp] at he
  rcases mem_candidates (mem_top5 he) with ⟨r, _, _, he'⟩
  rw [he']
  show ((S.map pyNormalize).filter _).Sublist (S.map pyNormalize) ∧ _ ∧ _
  refine ⟨List.filter_sublist _, ?_, ?_⟩
  · intro x hx
    exact (List.filter_sublist _).subset hx
  · intro hnd
    exact hnd.filter _

unseal Rat.mul Rat.add Rat.sub Rat.inv in
theorem claim5_matching_sublist_amended_app :
    (mkEntry fluRow 100 [str "fever"]).matching_symptoms.Sublist
      ([str "fever"].map pyNormalize) :=
  (claim5_matching_sublist_amended [fluRow] [str "fever"]
    (mkEntry fluRow 100 [str "fever"]) (by decide) (by decide)).1

/-- C6: if the body of `predict_diseases` raises (modelled by
`scoreBodyE` returning an error, which happens when the dataset is absent),
the call returns the two-entry general-recommendation pair built from the
raw input instead of propagating the error; in every case the result is
either the successful body result or that two-entry pair, and it is never
empty, so no error is outwardly visible. -/
theorem claim6_exception_recovery (data : Option (List DiseaseRow)) (S : List PyStr) :
    (∀ msg, scoreBodyE data S = Except.error msg →
      predictDiseases data S = generalRecommendations S)
    ∧ (generalRecommendations S).length = 2
    ∧ (scoreBodyE data S = Except.ok (predictDiseases data S)
        ∨ predictDiseases data S = generalRecommendations S)
    ∧ predictDiseases data S ≠ [] := by
  refine ⟨?_, rfl, ?_, ?_⟩
  · intro msg h
    simp [predictDiseases, h]
  · cases data with
    | none => exact Or.inr rfl
    | some t => exact Or.inl rfl
  · cases data with
    | none =>
      show generalRecommendations S ≠ []
      simp [generalRecommendations]
    | some t =>
      show rankedOrFallback t (S.map pyNormalize) ≠ []
      unfold rankedOrFallback
      by_cases h : lowConfidence (top5 t (S.map pyNormalize)) = true
      · simp [h, generalRecommendations]
      · rw [if_neg h]
        intro h0
        rw [h0] at h
        exact h rfl

theorem claim6_exception_recovery_app :
    predictDiseases none [str " FEVER "] = generalRecommendations [str " FEVER "] :=
  (claim6_exception_recovery none [str " FEVER "]).1
    (str "Disease dataset not available") rfl

theorem lower_space_fix {c : Char} (h : pyIsSpace c = true) : pyLowerChar c = c := by
  simp only [pyIsSpace, Bool.or_eq_true, decide_eq_true_eq] at h
  rcases h with ((((h | h) | h) | h) | h) | h <;> subst h <;> decide

theorem map_lower_space {w : PyStr} (h : ∀ c ∈ w, pyIsSpace c = true) :
    w.map pyLowerChar = w := by
  induction w with
  | nil => rfl
  | cons c w ih =>
    rw [List.map_cons, lower_space_fix (h c (List.mem_cons_self c w)),
      ih (fun d hd => h d (List.mem_cons_of_mem c hd))]

theorem dropWhile_append_space (w l : PyStr) (h : ∀ c ∈ w, pyIsSpace c = true) :
    (w ++ l).dropWhile pyIsSpace = l.dropWhile pyIsSpace := by
  induction w with
  | nil => rfl
  | cons c w ih =>
    rw [List.cons_append, List.dropWhile_cons, if_pos (h c (List.mem_cons_self c w))]
    exact ih (fun d hd => h d (List.mem_cons_of_mem c hd))

theorem dropWhile_space_nil (w : PyStr) (h : ∀ c ∈ w, pyIsSpace c = true) :
    w.dropWhile pyIsSpace = [] := by
  have := dropWhile_append_space w [] h
  rwa [List.append_nil] at this

theorem dropWhile_append_left (l₁ l₂ : PyStr) (h : l₁.dropWhile pyIsSpace ≠ []) :
    (l₁ ++ l₂).dropWhile pyIsSpace = l₁.dropWhile pyIsSpace ++ l₂ := by
  induction l₁ with
  | nil => simp at h
  | cons c l ih =>
    cases hc : pyIsSpace c
    · simp [List.dropWhile_cons, hc]
    · rw [List.dropWhile_cons, if_pos hc] at h
      simp only [List.cons_append, List.dropWhile_cons, hc, if_true]
      exact ih h

theorem pyStrip_pad (w₁ w₂ x : PyStr) (h₁ : ∀ c ∈ w₁, pyIsSpace c = true)
    (h₂ : ∀ c ∈ w₂, pyIsSpace c = true) :
    pyStrip (w₁ ++ x ++ w₂) = pyStrip x := by
  unfold pyStrip
  rw [List.append_assoc, dropWhile_append_space w₁ _ h₁]
  by_cases hx : ∀ c ∈ x, pyIsSpace c = true
  · have hxw : ∀ c ∈ x ++ w₂, pyIsSpace c = true := by
      intro c hc
      rcases List.mem_append.mp hc with hc | hc
      · exact hx c hc
      · exact h₂ c hc
    rw [dropWhile_space_nil _ hxw, dropWhile_space_nil _ hx]
  · have hne : x.dropWhile pyIsSpace ≠ [] := by
      intro h0
      exact hx (List.dropWhile_eq_nil_iff.mp h0)
    rw [dropWhile_append_left _ _ hne, List.reverse_append,
      dropWhile_append_space w₂.reverse _
        (fun c hc => h₂ c (List.mem_reverse.mp hc))]

theorem caseVariant_map_lower {s m : PyStr} (h : caseVariant s m) :
    m.map pyLowerChar = s.map pyLowerChar := by
  induction h with
  | nil => rfl
  | cons hab _ ih => simp only [List.map_cons, ih, hab]

theorem pyNormalize_variant {s t : PyStr} (h : symVariant s t) :
    pyNormalize t = pyNormalize s := by
  rcases h with ⟨m, hcase, w₁, w₂, rfl, h₁, h₂⟩
  unfold pyNormalize
  rw [List.map_append, List.map_append, map_lower_space h₁, map_lower_space h₂,
    pyStrip_pad _ _ _ h₁ h₂, caseVariant_map_lower hcase]

/-- C7: changing the letter case of input symptoms and/or adding leading or
trailing whitespace to them leaves the diseases output of `predict_diseases`
unchanged, because every symptom is lowercased and stripped before any
matching. -/
theorem claim7_case_ws_insensitive (t : List DiseaseRow) (S S' : List PyStr)
    (h : List.Forall₂ symVariant S S') :
    predictDiseases (some t) S' = predictDiseases (some t) S := by
  have hm : S'.map pyNormalize = S.map pyNormalize := by
    induction h with
    | nil => rfl
    | cons hv _ ih => simp only [List.map_cons, ih, pyNormalize_variant hv]
  simp [predictDiseases, scoreBodyE, scoreBody, hm]

unseal Rat.mul Rat.add Rat.sub Rat.inv in
theorem claim7_case_ws_insensitive_app :
    predictDiseases (some [fluRow]) [str " FEVER "]
      = predictDiseases (some [fluRow]) [str "fever"] :=
  claim7_case_ws_insensitive [fluRow] [str "fever"] [str " FEVER "]
    (List.Forall₂.cons
      ⟨str "FEVER",
        List.Forall₂.cons (by decide) (List.Forall₂.cons (by decide)
          (List.Forall₂.cons (by decide) (List.Forall₂.cons (by decide)
            (List.Forall₂.cons (by decide) List.Forall₂.nil)))),
        [' '], [' '], by decide, by decide, by decide⟩
      List.Forall₂.nil)

/-- C8 counterexample: when the dataset path exists and parsing succeeds
with zero data rows, `_load_dataset` keeps the parsed (empty) table, so the
loader does not always leave a non-empty table. -/
theorem claim8_loader_empty_cex :
    loadDataset (some (Except.ok [])) = ([] : List DiseaseRow) := rfl

/-- C8 amended: the loader never fails outward: when the path is missing or
parsing raises it substitutes the fixed 12-record fallback table (named
`Common Cold` through `Depression`, each with 3 non-empty symptom slots, a
description and a treatment); when parsing succeeds it returns the parsed
rows unchecked, so a successfully parsed empty file leaves an empty table. -/
theorem claim8_loader_fallback_amended :
    (∀ o, loadDataset o = fallbackDataset
        ∨ ∃ rows, o = some (Except.ok rows) ∧ loadDataset o = rows)
    ∧ loadDataset none = fallbackDataset
    ∧ (∀ e, loadDataset (some (Except.error e)) = fallbackDataset)
    ∧ fallbackDataset.length = 12
    ∧ fallbackDataset.map DiseaseRow.name =
        [str "Common Cold", str "Influenza", str "Migraine", str "Food Poisoning",
         str "Allergic Reaction", str "Anxiety", str "Hypertension", str "Diabetes",
         str "Asthma", str "Gastritis", str "Insomnia", str "Depression"]
    ∧ (∀ r ∈ fallbackDataset, r.symptoms.length = 3
        ∧ (∀ o ∈ r.symptoms, o.getD [] ≠ [])
        ∧ r.description.getD [] ≠ [] ∧ r.treatment.getD [] ≠ []) := by
  refine ⟨?_, rfl, fun e => rfl, rfl, rfl, by decide⟩
  intro o
  match o with
  | none => exact Or.inl rfl
  | some (Except.error e) => exact Or.inl rfl
  | some (Except.ok rows) => exact Or.inr ⟨rows, rfl, rfl⟩

theorem claim8_loader_fallback_amended_app :
    (fallbackDataset.get ⟨0, by decide⟩).symptoms.length = 3 :=
  (claim8_loader_fallback_amended.2.2.2.2.2 (fallbackDataset.get ⟨0, by decide⟩)
    (List.get_mem _ _ _)).1

theorem isSubstr_nil (b : PyStr) : isSubstr [] b = true := by
  unfold isSubstr
  rw [List.any_eq_true]
  exact ⟨0, List.mem_range.mpr (Nat.succ_pos _), by simp⟩

theorem scanMatch_of_empty_mem (u : PyStr) (ds : List PyStr) (hnil : [] ∈ ds)
    (hne : ∀ d ∈ ds, u ≠ d) : scanMatch u ds = some false := by
  induction ds with
  | nil => simp at hnil
  | cons d ds ih =>
    unfold scanMatch
    rw [if_neg (hne d (List.mem_cons_self d ds))]
    by_cases hpart : (isSubstr u d || isSubstr d u) = true
    · rw [if_pos hpart]
    · rw [if_neg hpart]
      have hd : d ≠ [] := by
        intro h0
        apply hpart
        rw [h0, isSubstr_nil]
        simp
      have hnil' : [] ∈ ds := by
        rcases List.mem_cons.mp hnil with h0 | h0
        · exact absurd h0.symm hd
        · exact h0
      exact ih hnil' (fun d' hd' => hne d' (List.mem_cons_of_mem d hd'))

/-- C9: a slot is dropped only when it is NaN; a present but empty or
whitespace-only slot normalizes to the empty string and stays in the row's
symptom set, and since the empty string is a substring of every string,
every user symptom with no exact match in that set scores as a 0.7 partial
match against that disease. -/
theorem claim9_empty_slot_match (r : DiseaseRow) (s : PyStr) :
    (some s ∈ r.symptoms → pyNormalize s ∈ rowSymptoms r)
    ∧ ((∀ c ∈ s, pyIsSpace c = true) → pyNormalize s = [])
    ∧ (∀ u ds, [] ∈ ds → (∀ d ∈ ds, u ≠ d) → contrib u ds = 7 / 10) := by
  refine ⟨?_, ?_, ?_⟩
  · intro h
    exact List.mem_filterMap.mpr ⟨some s, h, rfl⟩
  · intro h
    unfold pyNormalize
    rw [map_lower_space h]
    unfold pyStrip
    rw [dropWhile_space_nil s h]
    rfl
  · intro u ds h1 h2
    unfold contrib
    rw [scanMatch_of_empty_mem u ds h1 h2]

theorem claim9_empty_slot_match_app :
    pyNormalize (str "   ") ∈ rowSymptoms wsRow
      ∧ contrib (str "fever") [str "xxx", []] = 7 / 10 :=
  ⟨(claim9_empty_slot_match wsRow (str "   ")).1 (by decide),
   (claim9_empty_slot_match wsRow (str "   ")).2.2 (str "fever")
     [str "xxx", []] (by decide) (by decide)⟩

unseal Rat.mul Rat.add Rat.sub Rat.inv in
/-- C10: the exception-recovery path builds the fallback entries from the
raw input symptoms while the low-confidence path builds them from the
normalized (lowercased, trimmed) symptoms, and for the non-normalized input
`[" FEVER "]` the two paths return different entry contents. -/
theorem claim10_recovery_paths_differ :
    (∀ S : List PyStr, predictDiseases none S = generalRecommendations S)
    ∧ (∀ (t : List DiseaseRow) (S : List PyStr),
        lowConfidence (top5 t (S.map pyNormalize)) = true →
          predictDiseases (some t) S
            = generalRecommendations (S.map pyNormalize))
    ∧ predictDiseases none [str " FEVER "]
        ≠ predictDiseases (some [xyzRow]) [str " FEVER "] := by
  refine ⟨fun S => rfl, ?_, ?_⟩
  · intro t S h
    simp [predictDiseases, scoreBodyE, scoreBody, rankedOrFallback, h]
  · decide

unseal Rat.mul Rat.add Rat.sub Rat.inv in
theorem claim10_recovery_paths_differ_app :
    predictDiseases (some [xyzRow]) [str " FEVER "]
      = generalRecommendations ([str " FEVER "].map pyNormalize) :=
  claim10_recovery_paths_differ.2.1 [xyzRow] [str " FEVER "] (by decide)
